import Mathlib

/-!
Verification of the diagram-editor repository's specified behavior.

The definitions below are shallow embeddings of the TypeScript/Vue source:
pure functions become Lean functions, reactive component state becomes
explicit state records threaded through transition functions, fallible
host/library calls become `Option`/`Except`-valued parameters, and JS
numbers that are in fact bytes become `Nat` values known to be `< 256`.
-/

/-! ### §1 PlantUML encoder (src/views/DesignStudio.vue, encodePlantUML / encode64 / append3bytes) -/

/-- The fixed PlantUML 64-character alphabet from `append3bytes`
(`'0123456789ABCDEFGHIJKLMNOPQRSTUVWXYZabcdefghijklmnopqrstuvwxyz-_'`). -/
def plantUMLChars : String :=
  "0123456789ABCDEFGHIJKLMNOPQRSTUVWXYZabcdefghijklmnopqrstuvwxyz-_"

/-- JavaScript `String.prototype.charAt`: the one-character string at index `i`,
or the empty string when `i` is out of range. -/
def jsCharAt (s : String) (i : Nat) : String :=
  match s.data.get? i with
  | some c => String.singleton c
  | none => ""

/-- `append3bytes(b1, b2, b3)` from DesignStudio.vue: encode 3 bytes as 4
characters of the PlantUML alphabet.  The inputs are byte values (`< 256`),
as produced by `charCodeAt` on a string built from a `Uint8Array`. -/
def append3bytes (b1 b2 b3 : Nat) : String :=
  let c1 := b1 >>> 2
  let c2 := ((b1 &&& 0x3) <<< 4) ||| (b2 >>> 4)
  let c3 := ((b2 &&& 0xF) <<< 2) ||| (b3 >>> 6)
  let c4 := b3 &&& 0x3F
  jsCharAt plantUMLChars c1 ++ jsCharAt plantUMLChars c2 ++
    jsCharAt plantUMLChars c3 ++ jsCharAt plantUMLChars c4

/-- `encode64(data)` from DesignStudio.vue.  In the source, `data` is a
JavaScript string whose code units are the compressed bytes
(`String.fromCharCode(...compressed)`); `charCodeAt` recovers exactly those
byte values, so the function is embedded directly on the list of bytes.
The source loop steps by 3 and branches on `i + 2 === data.length`
(two bytes remain) and `i + 1 === data.length` (one byte remains),
zero-filling the missing bytes. -/
def encode64 : List Nat → String
  | [] => ""
  | [b1] => append3bytes b1 0 0
  | [b1, b2] => append3bytes b1 b2 0
  | b1 :: b2 :: b3 :: rest => append3bytes b1 b2 b3 ++ encode64 rest

/-- UTF-8 encoding of one character (model of `TextEncoder().encode`),
from the UTF-8 definition. -/
def utf8EncodeCharB (c : Char) : List Nat :=
  let n := c.toNat
  if n < 0x80 then [n]
  else if n < 0x800 then
    [0xC0 ||| (n >>> 6), 0x80 ||| (n &&& 0x3F)]
  else if n < 0x10000 then
    [0xE0 ||| (n >>> 12), 0x80 ||| ((n >>> 6) &&& 0x3F), 0x80 ||| (n &&& 0x3F)]
  else
    [0xF0 ||| (n >>> 18), 0x80 ||| ((n >>> 12) &&& 0x3F),
      0x80 ||| ((n >>> 6) &&& 0x3F), 0x80 ||| (n &&& 0x3F)]

/-- UTF-8 byte sequence of a string (model of `new TextEncoder().encode(text)`). -/
def utf8Bytes (s : String) : List Nat :=
  s.data.flatMap utf8EncodeCharB

/-- Adler-32 checksum (RFC 1950) of a byte sequence, as appended by zlib
framing. -/
def adler32 (data : List Nat) : Nat :=
  let p := data.foldl
    (fun (ab : Nat × Nat) b =>
      let a := (ab.1 + b) % 65521
      (a, (ab.2 + a) % 65521))
    (1, 0)
  p.2 * 65536 + p.1

/-- The four big-endian bytes of the Adler-32 checksum. -/
def adler32Bytes (data : List Nat) : List Nat :=
  let a := adler32 data
  [(a >>> 24) &&& 255, (a >>> 16) &&& 255, (a >>> 8) &&& 255, a &&& 255]

/-- zlib (RFC 1950) framing put around a raw DEFLATE stream by
`pako.deflate` at compression level 9: the two header bytes
`0x78 0xDA` (CMF/FLG for a 32K window at maximum compression level),
then the raw DEFLATE data, then the Adler-32 checksum of the
uncompressed input `data`. -/
def zlibWrapL9 (data rawStream : List Nat) : List Nat :=
  0x78 :: 0xDA :: (rawStream ++ adler32Bytes data)

/-- Container formats a DEFLATE-family compressor can emit. -/
inductive StreamFormat where
  | raw : StreamFormat
  | zlib : StreamFormat
  | gzip : StreamFormat
deriving DecidableEq

/-- The options object passed to `pako.deflate`.  The pako API defaults
`raw` to `false`; the call in `encodePlantUML` is
`pako.deflate(data, \x7b level: 9 \x7d)`, which leaves `raw` at its default. -/
structure PakoDeflateOptions where
  level : Int
  raw : Bool := false

/-- pako's container-format selection (modelled from the pako API, an
external library dependency): `pako.deflate` emits a zlib-framed stream
unless the option `raw: true` is passed (`pako.deflateRaw`); `pako.gzip`
is a separate entry point. -/
def pakoFormatOf (o : PakoDeflateOptions) : StreamFormat :=
  if o.raw then StreamFormat.raw else StreamFormat.zlib

/-- The options object at the `encodePlantUML` call site:
`pako.deflate(data, \x7b level: 9 \x7d)`. -/
def designStudioDeflateOptions : PakoDeflateOptions :=
  { level := 9 }

/-- `pako.deflate` at level 9, parameterized by the raw-DEFLATE
compression algorithm itself (external to the repository); `none` models
the only failure mode, a thrown allocation error.  On success the raw
stream is framed in the zlib container. -/
def pakoDeflate (deflateRawAlg : List Nat → Option (List Nat)) (data : List Nat) :
    Option (List Nat) :=
  (deflateRawAlg data).map (zlibWrapL9 data)

/-- The standard base64 alphabet used by `btoa`. -/
def stdB64Chars : String :=
  "ABCDEFGHIJKLMNOPQRSTUVWXYZabcdefghijklmnopqrstuvwxyz0123456789+/"

/-- Character of the standard base64 alphabet at index `i` (always in
range at every use site below, since the indices are 6-bit values). -/
def stdB64Char (i : Nat) : Char :=
  stdB64Chars.data.getD i '?'

/-- `btoa` on a sequence of byte values: standard base64 with `=` padding. -/
def stdBase64 : List Nat → String
  | [] => ""
  | [b1] =>
    ⟨[stdB64Char (b1 >>> 2), stdB64Char ((b1 &&& 0x3) <<< 4), '=', '=']⟩
  | [b1, b2] =>
    ⟨[stdB64Char (b1 >>> 2), stdB64Char (((b1 &&& 0x3) <<< 4) ||| (b2 >>> 4)),
      stdB64Char ((b2 &&& 0xF) <<< 2), '=']⟩
  | b1 :: b2 :: b3 :: rest =>
    (⟨[stdB64Char (b1 >>> 2), stdB64Char (((b1 &&& 0x3) <<< 4) ||| (b2 >>> 4)),
      stdB64Char (((b2 &&& 0xF) <<< 2) ||| (b3 >>> 6)), stdB64Char (b3 &&& 0x3F)]⟩ : String)
      ++ stdBase64 rest

/-- The catch-branch fallback `btoa(unescape(encodeURIComponent(text)))`:
`encodeURIComponent` followed by `unescape` turns the string into its
UTF-8 bytes viewed as code units, and `btoa` base64-encodes those bytes. -/
def btoaFallback (text : String) : String :=
  stdBase64 (utf8Bytes text)

/-- `encodePlantUML(text)` from DesignStudio.vue, parameterized by the raw
DEFLATE compression algorithm (the external pako library's compressor,
whose zlib framing at this call site is fixed by `pakoDeflate`).  The
`try/catch` of the source makes the function total: a compression failure
produces the `btoa` fallback instead of an exception. -/
def encodePlantUML (deflateRawAlg : List Nat → Option (List Nat)) (text : String) :
    String :=
  match pakoDeflate deflateRawAlg (utf8Bytes text) with
  | some compressed => encode64 compressed
  | none => btoaFallback text

/-! ### §2 Spec-side restatement of the custom base64 stage (claim C2) -/

/-- Spec-side: split a byte sequence into groups of 3, zero-padding the
missing bytes of the last group. -/
def chunk3 : List Nat → List (Nat × Nat × Nat)
  | [] => []
  | [b1] => [(b1, 0, 0)]
  | [b1, b2] => [(b1, b2, 0)]
  | b1 :: b2 :: b3 :: rest => (b1, b2, b3) :: chunk3 rest

/-- Spec-side: the alphabet character at index `0..63`. -/
def plantAlphaChar (i : Nat) : Char :=
  plantUMLChars.data.getD i '?'

/-- Spec-side: the four 6-bit values of a group, mapped through the
alphabet, exactly as the spec's formulas state them. -/
def specGroupChars (g : Nat × Nat × Nat) : List Char :=
  [plantAlphaChar (g.1 >>> 2),
   plantAlphaChar (((g.1 &&& 0x3) <<< 4) ||| (g.2.1 >>> 4)),
   plantAlphaChar (((g.2.1 &&& 0xF) <<< 2) ||| (g.2.2 >>> 6)),
   plantAlphaChar (g.2.2 &&& 0x3F)]

/-- Spec-side custom base64: concatenation, over the 3-byte groups, of the
four alphabet characters of each group. -/
def encode64Spec (bs : List Nat) : String :=
  ⟨(chunk3 bs).flatMap specGroupChars⟩

/-! ### §3 AI configuration load/merge (src/components/AIConfigModal.vue and
src/views/DesignStudio.vue `onMounted`) -/

/-- The `AIConfig` interface of AIConfigModal.vue.  The JS number `0.7` is
embedded as the rational `7/10`; the merge logic never computes with it. -/
structure AIConfig where
  provider : String
  apiKey : String
  apiUrl : String
  model : String
  temperature : ℚ
  maxTokens : Nat
  timeout : Nat
  templateUrl : String
  enableRemoteTemplate : Bool
  enableStreaming : Bool
  enableAutoSuggest : Bool
deriving DecidableEq

/-- A configuration object as it exists at runtime after `JSON.parse`:
any subset of the fields may be present (`none` = absent/undefined). -/
structure StoredAIConfig where
  provider : Option String := none
  apiKey : Option String := none
  apiUrl : Option String := none
  model : Option String := none
  temperature : Option ℚ := none
  maxTokens : Option Nat := none
  timeout : Option Nat := none
  templateUrl : Option String := none
  enableRemoteTemplate : Option Bool := none
  enableStreaming : Option Bool := none
  enableAutoSuggest : Option Bool := none
deriving DecidableEq

/-- `defaultConfig` from AIConfigModal.vue. -/
def defaultConfig : AIConfig :=
  { provider := "demo"
    apiKey := ""
    apiUrl := ""
    model := "gpt-4"
    temperature := 7 / 10
    maxTokens := 2000
    timeout := 30
    templateUrl := "https://api.example.com/templates"
    enableRemoteTemplate := false
    enableStreaming := true
    enableAutoSuggest := false }

/-- The object-spread merge `\x7b ...defaultConfig, ...parsed \x7d`: every
field present in `parsed` overrides the default, every absent field keeps
the default. -/
def mergeOverDefaults (d : AIConfig) (p : StoredAIConfig) : AIConfig :=
  { provider := p.provider.getD d.provider
    apiKey := p.apiKey.getD d.apiKey
    apiUrl := p.apiUrl.getD d.apiUrl
    model := p.model.getD d.model
    temperature := p.temperature.getD d.temperature
    maxTokens := p.maxTokens.getD d.maxTokens
    timeout := p.timeout.getD d.timeout
    templateUrl := p.templateUrl.getD d.templateUrl
    enableRemoteTemplate := p.enableRemoteTemplate.getD d.enableRemoteTemplate
    enableStreaming := p.enableStreaming.getD d.enableStreaming
    enableAutoSuggest := p.enableAutoSuggest.getD d.enableAutoSuggest }

/-- `loadConfig` from AIConfigModal.vue.  `saved` is the result of
`localStorage.getItem` (`none` = no stored value) combined with
`JSON.parse` (`Except.error` = parse threw, caught by the `try`, leaving
the current config untouched). -/
def modalLoadConfig (current : AIConfig)
    (saved : Option (Except Unit StoredAIConfig)) : AIConfig :=
  match saved with
  | some (Except.ok p) => mergeOverDefaults defaultConfig p
  | some (Except.error _) => current
  | none => current

/-- View a complete config as a runtime object with every field present. -/
def toStored (c : AIConfig) : StoredAIConfig :=
  { provider := some c.provider
    apiKey := some c.apiKey
    apiUrl := some c.apiUrl
    model := some c.model
    temperature := some c.temperature
    maxTokens := some c.maxTokens
    timeout := some c.timeout
    templateUrl := some c.templateUrl
    enableRemoteTemplate := some c.enableRemoteTemplate
    enableStreaming := some c.enableStreaming
    enableAutoSuggest := some c.enableAutoSuggest }

/-- The startup load in DesignStudio.vue `onMounted`:
`aiConfig.value = JSON.parse(savedConfig)` — the parsed object replaces
the config wholesale, with no merge over defaults; on a parse error or a
missing stored value the current config is kept.  The result is the
runtime shape of the object, which may be missing fields. -/
def dsStartupLoad (current : StoredAIConfig)
    (saved : Option (Except Unit StoredAIConfig)) : StoredAIConfig :=
  match saved with
  | some (Except.ok p) => p
  | some (Except.error _) => current
  | none => current

/-- The initial `aiConfig` literal of DesignStudio.vue (line 89). -/
def dsInitialAIConfig : AIConfig :=
  { provider := "demo"
    apiKey := ""
    apiUrl := ""
    model := "gpt-4"
    temperature := 7 / 10
    maxTokens := 2000
    timeout := 30
    templateUrl := "https://api.example.com/templates"
    enableRemoteTemplate := false
    enableStreaming := true
    enableAutoSuggest := false }

/-- Every field of the runtime configuration object is present. -/
def configComplete (p : StoredAIConfig) : Bool :=
  p.provider.isSome && p.apiKey.isSome && p.apiUrl.isSome && p.model.isSome &&
    p.temperature.isSome && p.maxTokens.isSome && p.timeout.isSome &&
    p.templateUrl.isSome && p.enableRemoteTemplate.isSome &&
    p.enableStreaming.isSome && p.enableAutoSuggest.isSome

/-! ### §4 AI diagram generation and its local fallback
(src/views/DesignStudio.vue `generatePlantUMLFromInput`,
`generateDemoPlantUML`, `insertPlantUMLToEditor`; src/unnamed/part_002
`generatePlantUML`) -/

/-- Is `sub` a contiguous run of `l`? (JS `String.prototype.includes`,
on char lists.) -/
def charRunAt : List Char → List Char → Bool
  | _, [] => true
  | [], _ :: _ => false
  | a :: as, b :: bs => a == b && charRunAt as bs

/-- Search every tail of `l` for `sub`. -/
def hasCharRun (sub : List Char) : List Char → Bool
  | [] => sub.isEmpty
  | a :: t => charRunAt (a :: t) sub || hasCharRun sub t

/-- JS `s.includes(sub)`. -/
def jsIncludes (s sub : String) : Bool :=
  hasCharRun sub.data s.data

/-- JS `s.toLowerCase()`, restricted to the ASCII case mapping (the only
keyword this matters for is `'class'`, which is ASCII). -/
def jsToLowerCase (s : String) : String :=
  ⟨s.data.map Char.toLower⟩

/-- JS `s.trim()`: strip leading and trailing whitespace. -/
def jsTrim (s : String) : String :=
  ⟨(((s.data.dropWhile Char.isWhitespace).reverse.dropWhile Char.isWhitespace).reverse)⟩

/-- The header DesignStudio's `insertPlantUMLToEditor` puts before an
inserted diagram block. -/
def insertHeader : String := "\n\n## 自动生成图表\n\n"

/-- `generateDemoPlantUML(text)` from DesignStudio.vue: the canned,
keyword-matched fallback diagram.  Each branch is the source's template
literal with `${text}` spliced in. -/
def generateDemoPlantUML (text : String) : String :=
  let desc : String := jsToLowerCase text
  if jsIncludes desc "登录" || jsIncludes desc "认证" || jsIncludes desc "鉴权" then
    "```plantuml\n@startuml\n!theme plain\nskinparam backgroundColor #FEFEFE\ntitle "
      ++ text ++
      "\n\nactor 用户 as User\nparticipant \"前端应用\" as Frontend\nparticipant \"认证服务\\nAuth Service\" as Auth\ndatabase \"用户数据\" as DB\n\nUser -> Frontend: 1. 输入账号密码\nFrontend -> Auth: 2. POST /login\nAuth -> DB: 3. 查询用户信息\nDB --> Auth: 4. 返回用户数据\nAuth -> Auth: 5. 验证密码哈希\n\nalt 验证成功\n    Auth --> Frontend: 6a. 返回 JWT Token\n    Frontend --> User: 7a. 登录成功跳转\nelse 验证失败\n    Auth --> Frontend: 6b. 返回 401 错误\n    Frontend --> User: 7b. 显示错误提示\nend\n\n@enduml\n```"
  else if jsIncludes desc "订单" || jsIncludes desc "下单" || jsIncludes desc "购买" then
    "```plantuml\n@startuml\n!theme plain\nskinparam backgroundColor #FEFEFE\ntitle "
      ++ text ++
      "\n\nactor 用户 as User\nparticipant \"订单服务\\nOrder Service\" as Order\nparticipant \"库存服务\\nStock Service\" as Stock\nparticipant \"支付服务\\nPayment Service\" as Pay\ndatabase \"订单数据库\" as OrderDB\n\ngroup 创建订单\n    User -> Order: 1. 提交订单请求\n    Order -> Stock: 2. 检查库存\n    Stock --> Order: 3. 库存充足\n    Order -> OrderDB: 4. 保存订单(状态:待支付)\n    Order --> User: 5. 订单创建成功\nend\n\ngroup 支付流程\n    User -> Pay: 6. 发起支付\n    Pay -> OrderDB: 7. 更新订单状态(已支付)\n    OrderDB --> Pay: 8. 更新成功\n    Pay --> User: 9. 支付成功确认\nend\n\n@enduml\n```"
  else if jsIncludes desc "类" || jsIncludes desc "class" || jsIncludes desc "对象" then
    "```plantuml\n@startuml\n!theme plain\nskinparam backgroundColor #FEFEFE\ntitle "
      ++ text ++
      " - 类图\n\nclass User \x7b\n  - Long id\n  - String username\n  - String email\n  + Boolean login()\n  + void logout()\n\x7d\n\nclass Order \x7b\n  - Long id\n  - Long userId\n  - BigDecimal amount\n  + Boolean pay()\n  + Boolean cancel()\n\x7d\n\nUser \"1\" --> \"*\" Order : 拥有 >\n\n@enduml\n```"
  else
    "```plantuml\n@startuml\n!theme plain\nskinparam backgroundColor #FEFEFE\ntitle "
      ++ text ++
      "\n\nstart\n:接收用户输入;\n:系统处理请求;\nif (条件判断?) then (条件成立)\n  :执行分支 A;\nelse (条件不成立)\n  :执行分支 B;\nendif\n:返回响应;\nstop\n\n@enduml\n```"

/-- The reactive state of DesignStudio touched by
`generatePlantUMLFromInput`.  `editorContent` is the markdown held by the
editor instance, `none` when `editor.value` is null (not yet initialized). -/
structure StudioState where
  aiInput : String
  editorContent : Option String
  docContent : String
  showAiPanel : Bool
  isGenerating : Bool
  toastMessage : String
deriving DecidableEq

/-- `insertPlantUMLToEditor(plantumlCode)` from DesignStudio.vue: appends
a header and the code to the editor's markdown and mirrors it into
`docContent`; a missing editor makes it a no-op (`if (!editor.value) return`). -/
def insertPlantUMLToEditor (st : StudioState) (code : String) : StudioState :=
  match st.editorContent with
  | none => st
  | some md =>
    let newContent := md ++ insertHeader ++ code
    { st with docContent := newContent, editorContent := some newContent }

/-- `generatePlantUMLFromInput` from DesignStudio.vue as a state
transition.  `invokeRes` is the settled outcome of
`invoke('generate_plantuml', ...)`: `Except.error` models a rejected
promise, caught by the source's `catch`, which substitutes the demo
diagram.  The `finally` clears `isGenerating` on every path past the
guard. -/
def generatePlantUMLFromInput (st : StudioState)
    (invokeRes : Except String String) : StudioState :=
  if jsTrim st.aiInput = "" then
    { st with toastMessage := "请输入需求描述" }
  else
    let st1 := { st with isGenerating := true }
    match invokeRes with
    | Except.ok result =>
      let st2 := insertPlantUMLToEditor st1 result
      { st2 with aiInput := "", showAiPanel := false,
                 toastMessage := "PlantUML 图表已生成", isGenerating := false }
    | Except.error _ =>
      let st2 := insertPlantUMLToEditor st1 (generateDemoPlantUML st1.aiInput)
      { st2 with aiInput := "", showAiPanel := false,
                 toastMessage := "已生成示例图表（演示模式）", isGenerating := false }

/-- The fixed canned fallback diagram of `generatePlantUML` in
src/unnamed/part_002 (not keyword-matched; independent of the input). -/
def part002DemoPlantUML : String :=
  "@startuml\n!theme plain\nskinparam backgroundColor #FEFEFE\n\nactor 用户\nparticipant \"前端界面\" as UI\nparticipant \"AI服务\" as AI\ndatabase \"文档存储\" as DB\n\n用户 -> UI: 输入需求描述\nUI -> AI: 调用生成接口\nAI -> AI: 分析需求\nAI -> UI: 返回PlantUML代码\nUI -> DB: 保存文档\nUI -> 用户: 显示生成结果\n\n@enduml"

/-- The reactive state of the part_002 view touched by its
`generatePlantUML`. -/
structure Part002State where
  aiInput : String
  editorContent : Option String
  docContent : String
  showAiPanel : Bool
  isGenerating : Bool
deriving DecidableEq

/-- `` `\n\n## 自动生成图表\n\n\x60\x60\x60plantuml\n${result}\n\x60\x60\x60\n` `` -/
def part002Block (result : String) : String :=
  "\n\n## 自动生成图表\n\n```plantuml\n" ++ result ++ "\n```\n"

/-- `editor.value?.getMarkdown() || ''` in part_002. -/
def part002Current (st : Part002State) : String :=
  match st.editorContent with
  | some md => md
  | none => ""

/-- `generatePlantUML` from src/unnamed/part_002 as a state transition.
On a rejected invoke, the `catch` appends a block containing the fixed
`part002DemoPlantUML`, regardless of the description text. -/
def part002GeneratePlantUML (st : Part002State)
    (invokeRes : Except String String) : Part002State :=
  if jsTrim st.aiInput = "" then
    st
  else
    let st1 := { st with isGenerating := true }
    match invokeRes with
    | Except.ok result =>
      let newContent := part002Current st1 ++ part002Block result
      { st1 with docContent := newContent,
                 editorContent := st1.editorContent.map (fun _ => newContent),
                 aiInput := "", showAiPanel := false, isGenerating := false }
    | Except.error _ =>
      let newContent := part002Current st1 ++ part002Block part002DemoPlantUML
      { st1 with docContent := newContent,
                 editorContent := st1.editorContent.map (fun _ => newContent),
                 aiInput := "", showAiPanel := false, isGenerating := false }

/-! ### §5 Template loaders (src/unnamed/part_002, the fetch-based
`loadTemplates` at lines 563-601 and the command-based `loadTemplates`
at lines 884-920) -/

/-- A remote template record (spec §6 wire shape, string fields). -/
structure RemoteTemplate where
  id : String
  name : String
  description : String
  content : String
deriving DecidableEq

/-- The shape of a successfully parsed JSON payload, as far as the
loaders inspect it: an array of templates, or anything else
(`Array.isArray` false). -/
inductive JsonShape where
  | arr : List RemoteTemplate → JsonShape
  | nonArray : JsonShape
deriving DecidableEq

/-- The loader state common to both components. -/
structure TState where
  templates : List RemoteTemplate
  error : Option String
  isLoading : Bool
deriving DecidableEq

/-- A settled `fetch` response: `ok`/`status` from the response object,
`body` the outcome of `response.json()` (`Except.error` = the JSON parse
rejected). -/
structure FetchResp where
  ok : Bool
  status : Nat
  body : Except Unit JsonShape

/-- The fetch-based `loadTemplates` (part_002 lines 563-601) as a state
transition.  `fetchRes` is `Except.error` when `fetch` itself rejected.
A non-ok status throws, which the inner `catch` turns into the
fetch-failure error message; a body whose JSON parse rejects does the
same; a body that parses to a non-array only logs a console warning and
leaves `allTemplates` empty, setting no error. -/
def loadTemplatesFetch (templateUrl : String)
    (fetchRes : Except String FetchResp) (st : TState) : TState :=
  let st0 : TState := { st with isLoading := true, error := none }
  let step : List RemoteTemplate × TState :=
    if jsTrim templateUrl ≠ "" then
      match fetchRes with
      | Except.error _ =>
        ([], { st0 with error := some "加载远程模板失败，请检查 URL 配置" })
      | Except.ok resp =>
        if resp.ok = false then
          ([], { st0 with error := some "加载远程模板失败，请检查 URL 配置" })
        else
          match resp.body with
          | Except.error _ =>
            ([], { st0 with error := some "加载远程模板失败，请检查 URL 配置" })
          | Except.ok (JsonShape.arr ts) => (ts, st0)
          | Except.ok JsonShape.nonArray => ([], st0)
    else
      ([], { st0 with error := some "未配置远程模板 URL" })
  { step.2 with templates := step.1, isLoading := false }

/-- The command-based `loadTemplates` (part_002 lines 884-920) as a state
transition.  `invokeRes` is the settled outcome of
`invoke('fetch_templates_via_command', ...)`; `parse` models
`JSON.parse` on its string result, `none` meaning the parse threw. -/
def loadTemplatesCommand (templateUrl : String)
    (invokeRes : Except String String) (parse : String → Option JsonShape)
    (st : TState) : TState :=
  let st0 : TState := { st with isLoading := true, error := none }
  if jsTrim templateUrl = "" then
    { st0 with error := some "未配置远程模板 URL，请在设置中配置",
               templates := [], isLoading := false }
  else
    match invokeRes with
    | Except.error msg =>
      { st0 with error := some (if msg = "" then "加载模板失败" else msg),
                 templates := [], isLoading := false }
    | Except.ok result =>
      match parse result with
      | none =>
        { st0 with error := some ("解析模板数据失败: " ++ result),
                   templates := [], isLoading := false }
      | some (JsonShape.arr ts) =>
        { st0 with templates := ts, error := none, isLoading := false }
      | some JsonShape.nonArray =>
        { st0 with error := some "远程模板格式不正确",
                   templates := [], isLoading := false }

/-! ### §6 Template upload dialog (src/components/TemplateUploadModal.vue) -/

/-- The form state of the upload modal. -/
structure UploadState where
  title : String
  description : String
  category : String
  tags : String
  isUploading : Bool
  uploadResult : Option (Bool × String)
  showSuccess : Bool
deriving DecidableEq

/-- `isFormValid`: trimmed title and trimmed document content both
non-empty. -/
def isFormValid (st : UploadState) (content : String) : Bool :=
  decide (0 < (jsTrim st.title).length) && decide (0 < (jsTrim content).length)

/-- The template record built by `handleUpload` (`now` models
`Date.now()`, `iso` models `new Date().toISOString()`). -/
structure UploadTemplateData where
  id : String
  name : String
  description : String
  content : String
  category : String
  tags : List String
  author : String
  createdAt : String
deriving DecidableEq

/-- `handleUpload` from TemplateUploadModal.vue as a state transition.
Returns the new form state, whether an upload was attempted at all, and
the local-storage template list (the `saveToLocalStorage` fallback
unshifts the record when the `invoke('save_template', ...)` call
rejects).  The validation guard returns early with a failure message and
touches nothing else. -/
def handleUpload (st : UploadState) (content : String) (now iso : String)
    (invokeRes : Except Unit Unit) (localTemplates : List UploadTemplateData) :
    UploadState × Bool × List UploadTemplateData :=
  if isFormValid st content = false then
    ({ st with uploadResult := some (false, "请填写模板标题") }, false, localTemplates)
  else
    let st1 := { st with isUploading := true, uploadResult := none }
    let data : UploadTemplateData :=
      { id := "template_" ++ now
        name := jsTrim st.title
        description := jsTrim st.description
        content := content
        category := st.category
        tags := ((st.tags.splitOn ",").map jsTrim).filter (fun t => 0 < t.length)
        author := "用户"
        createdAt := iso }
    let localAfter :=
      match invokeRes with
      | Except.ok _ => localTemplates
      | Except.error _ => data :: localTemplates
    ({ st1 with showSuccess := true,
                uploadResult := some (true, "模板上传成功！"),
                isUploading := false },
      true, localAfter)

/-! ### §7 Metrics dashboard chart data (src/unnamed/part_001 `chartData`) -/

/-- One metric record of the dashboard. -/
structure MetricData where
  date : String
  aiGenerateTimeMinutes : Nat
  aiLinesOfCode : Nat
  manualLinesOfCode : Nat
  reviewCommentsCount : Nat
  resolvedCommentsCount : Nat
deriving DecidableEq

/-- The records sorted ascending by date.  `dateKey` models
`new Date(x).getTime()`; `Array.prototype.sort` with the consistent
comparator `dateKey a - dateKey b` is the stable sort by
`dateKey a ≤ dateKey b`. -/
def sortedByDate (dateKey : String → Int) (ms : List MetricData) : List MetricData :=
  ms.mergeSort (fun a b => decide (dateKey a.date ≤ dateKey b.date))

/-- `chartData` from part_001: sort a spread-copy of the records by date
and take `slice(-7)`, the last at most 7 entries. -/
def chartData (dateKey : String → Int) (ms : List MetricData) : List MetricData :=
  let sorted := sortedByDate dateKey ms
  sorted.drop (sorted.length - 7)

/-- `chartData` with the underlying reactive list threaded through: the
source sorts the spread-copy `[...metrics.value]`, so the list the
computed property leaves behind is the one it started from. -/
def chartDataRun (dateKey : String → Int) (ms : List MetricData) :
    List MetricData × List MetricData :=
  (chartData dateKey ms, ms)

/-! ### §8 Derived predicates and concrete fixtures used by the theorems -/

/-- Every character of `s` lies in the PlantUML 64-character alphabet
`0-9A-Za-z-_`. -/
def allInAlphabet (s : String) : Bool :=
  s.data.all (fun c => plantUMLChars.data.contains c)

/-- A DesignStudio state with a pending description and an initialized,
empty editor. -/
def demoStudioState : StudioState :=
  { aiInput := "hello"
    editorContent := some ""
    docContent := ""
    showAiPanel := true
    isGenerating := false
    toastMessage := "" }

/-- A part_002 state asking for a login diagram. -/
def p002StateA : Part002State :=
  { aiInput := "登录系统"
    editorContent := some ""
    docContent := ""
    showAiPanel := true
    isGenerating := false }

/-- A part_002 state asking for an order diagram. -/
def p002StateB : Part002State :=
  { aiInput := "订单流程"
    editorContent := some ""
    docContent := ""
    showAiPanel := true
    isGenerating := false }

/-- A loader state holding one stale template and no error. -/
def initTState : TState :=
  { templates := [{ id := "t1", name := "n", description := "d", content := "c" }]
    error := none
    isLoading := false }

/-- An upload form whose title is blank (invalid). -/
def blankTitleUploadState : UploadState :=
  { title := "   "
    description := "desc"
    category := "文档"
    tags := "a,b"
    isUploading := false
    uploadResult := none
    showSuccess := false }

/-! ### §9 Helper lemmas -/

lemma plantAlphaChar_mem : ∀ i < 64, plantAlphaChar i ∈ plantUMLChars.data := by decide

lemma jsCharAt_eq_alpha : ∀ i < 64, jsCharAt plantUMLChars i = String.singleton (plantAlphaChar i) := by decide

lemma shiftRight2_lt {b : Nat} (h : b < 256) : b >>> 2 < 64 := by
  rw [Nat.shiftRight_eq_div_pow]; omega

lemma shiftRight4_lt {b : Nat} (h : b < 256) : b >>> 4 < 64 := by
  rw [Nat.shiftRight_eq_div_pow]; omega

lemma shiftRight6_lt {b : Nat} (h : b < 256) : b >>> 6 < 64 := by
  rw [Nat.shiftRight_eq_div_pow]; omega

lemma and3_shift4_lt (b : Nat) : (b &&& 0x3) <<< 4 < 64 := by
  have h1 : b &&& 0x3 ≤ 3 := Nat.and_le_right
  rw [Nat.shiftLeft_eq]; omega

lemma andF_shift2_lt (b : Nat) : (b &&& 0xF) <<< 2 < 64 := by
  have h1 : b &&& 0xF ≤ 15 := Nat.and_le_right
  rw [Nat.shiftLeft_eq]; omega

lemma and3F_lt (b : Nat) : b &&& 0x3F < 64 := by
  have h1 : b &&& 0x3F ≤ 63 := Nat.and_le_right
  omega

lemma or64 {x y : Nat} (hx : x < 64) (hy : y < 64) : x ||| y < 64 := by
  have h : x ||| y < 2 ^ 6 := Nat.or_lt_two_pow (by norm_num [hx]) (by norm_num [hy])
  omega

lemma append3bytes_eq (b1 b2 b3 : Nat) (h1 : b1 < 256) (h2 : b2 < 256) (h3 : b3 < 256) :
    append3bytes b1 b2 b3 = ⟨specGroupChars (b1, b2, b3)⟩ := by
  have e1 := jsCharAt_eq_alpha (b1 >>> 2) (shiftRight2_lt h1)
  have e2 := jsCharAt_eq_alpha (((b1 &&& 0x3) <<< 4) ||| (b2 >>> 4))
    (or64 (and3_shift4_lt b1) (shiftRight4_lt h2))
  have e3 := jsCharAt_eq_alpha (((b2 &&& 0xF) <<< 2) ||| (b3 >>> 6))
    (or64 (andF_shift2_lt b2) (shiftRight6_lt h3))
  have e4 := jsCharAt_eq_alpha (b3 &&& 0x3F) (and3F_lt b3)
  unfold append3bytes
  dsimp only
  rw [e1, e2, e3, e4]
  apply String.ext
  simp [String.data_append, String.singleton, specGroupChars]

lemma specGroupChars_mem (b1 b2 b3 : Nat) (h1 : b1 < 256) (h2 : b2 < 256) (h3 : b3 < 256) :
    ∀ c ∈ specGroupChars (b1, b2, b3), c ∈ plantUMLChars.data := by
  intro c hc
  simp only [specGroupChars, List.mem_cons, List.not_mem_nil, or_false] at hc
  rcases hc with rfl | rfl | rfl | rfl
  · exact plantAlphaChar_mem _ (shiftRight2_lt h1)
  · exact plantAlphaChar_mem _ (or64 (and3_shift4_lt b1) (shiftRight4_lt h2))
  · exact plantAlphaChar_mem _ (or64 (andF_shift2_lt b2) (shiftRight6_lt h3))
  · exact plantAlphaChar_mem _ (and3F_lt b3)

lemma encode64_eq_spec : ∀ bs : List Nat, (∀ b ∈ bs, b < 256) → encode64 bs = encode64Spec bs
  | [], _ => rfl
  | [b1], h => by
    have h1 := h b1 (by simp)
    show append3bytes b1 0 0 = _
    rw [append3bytes_eq b1 0 0 h1 (by omega) (by omega)]
    apply String.ext
    simp [encode64Spec, chunk3]
  | [b1, b2], h => by
    have h1 := h b1 (by simp)
    have h2 := h b2 (by simp)
    show append3bytes b1 b2 0 = _
    rw [append3bytes_eq b1 b2 0 h1 h2 (by omega)]
    apply String.ext
    simp [encode64Spec, chunk3]
  | b1 :: b2 :: b3 :: rest, h => by
    have h1 := h b1 (by simp)
    have h2 := h b2 (by simp)
    have h3 := h b3 (by simp)
    have ih := encode64_eq_spec rest (fun b hb => h b (by simp [hb]))
    show append3bytes b1 b2 b3 ++ encode64 rest = _
    rw [append3bytes_eq b1 b2 b3 h1 h2 h3, ih]
    apply String.ext
    simp [encode64Spec, chunk3, String.data_append]

lemma chunkFlat_length : ∀ bs : List Nat, ((chunk3 bs).flatMap specGroupChars).length % 4 = 0
  | [] => rfl
  | [_] => by simp [chunk3, specGroupChars]
  | [_, _] => by simp [chunk3, specGroupChars]
  | b1 :: b2 :: b3 :: rest => by
    have ih := chunkFlat_length rest
    show ((specGroupChars (b1, b2, b3)) ++ (chunk3 rest).flatMap specGroupChars).length % 4 = 0
    rw [List.length_append]
    have hg : (specGroupChars (b1, b2, b3)).length = 4 := rfl
    omega

lemma encode64Spec_length (bs : List Nat) : (encode64Spec bs).length % 4 = 0 :=
  chunkFlat_length bs

lemma encode64Spec_all : ∀ bs : List Nat, (∀ b ∈ bs, b < 256) →
    ∀ c ∈ (encode64Spec bs).data, c ∈ plantUMLChars.data
  | [], _ => by simp [encode64Spec, chunk3]
  | [b1], h => by
    intro c hc
    simp only [encode64Spec, chunk3, List.flatMap_cons, List.flatMap_nil,
      List.append_nil] at hc
    exact specGroupChars_mem b1 0 0 (h b1 (by simp)) (by omega) (by omega) c hc
  | [b1, b2], h => by
    intro c hc
    simp only [encode64Spec, chunk3, List.flatMap_cons, List.flatMap_nil,
      List.append_nil] at hc
    exact specGroupChars_mem b1 b2 0 (h b1 (by simp)) (h b2 (by simp)) (by omega) c hc
  | b1 :: b2 :: b3 :: rest, h => by
    intro c hc
    have h1 := h b1 (by simp)
    have h2 := h b2 (by simp)
    have h3 := h b3 (by simp)
    simp only [encode64Spec, chunk3, List.flatMap_cons, List.mem_append] at hc
    rcases hc with hc | hc
    · exact specGroupChars_mem b1 b2 b3 h1 h2 h3 c hc
    · exact encode64Spec_all rest (fun b hb => h b (by simp [hb])) c hc

lemma stdBase64_length : ∀ bs : List Nat, (stdBase64 bs).length % 4 = 0
  | [] => rfl
  | [_] => by simp [stdBase64, String.length]
  | [_, _] => by simp [stdBase64, String.length]
  | b1 :: b2 :: b3 :: rest => by
    have ih := stdBase64_length rest
    show ((⟨[stdB64Char (b1 >>> 2), stdB64Char (((b1 &&& 0x3) <<< 4) ||| (b2 >>> 4)),
      stdB64Char (((b2 &&& 0xF) <<< 2) ||| (b3 >>> 6)), stdB64Char (b3 &&& 0x3F)]⟩ : String)
      ++ stdBase64 rest).length % 4 = 0
    rw [String.length_append]
    have h4 : (⟨[stdB64Char (b1 >>> 2), stdB64Char (((b1 &&& 0x3) <<< 4) ||| (b2 >>> 4)),
      stdB64Char (((b2 &&& 0xF) <<< 2) ||| (b3 >>> 6)), stdB64Char (b3 &&& 0x3F)]⟩ : String).length = 4 := rfl
    omega

lemma stdBase64_ne_empty (b : Nat) (rest : List Nat) : stdBase64 (b :: rest) ≠ "" := by
  intro h
  have hd := congrArg String.data h
  match rest with
  | [] => simp [stdBase64] at hd
  | [b2] => simp [stdBase64] at hd
  | b2 :: b3 :: t => simp [stdBase64, String.data_append] at hd

lemma utf8EncodeCharB_ne_nil (c : Char) : utf8EncodeCharB c ≠ [] := by
  unfold utf8EncodeCharB
  dsimp only
  split_ifs <;> simp

lemma utf8Bytes_ne_nil (s : String) (h : s ≠ "") : utf8Bytes s ≠ [] := by
  obtain ⟨d⟩ := s
  cases d with
  | nil => exact absurd rfl h
  | cons c t =>
    show (c :: t).flatMap utf8EncodeCharB ≠ []
    rw [List.flatMap_cons]
    intro hne
    rcases List.append_eq_nil.mp hne with ⟨hc, _⟩
    exact utf8EncodeCharB_ne_nil c hc

lemma adler32Bytes_lt (data : List Nat) : ∀ b ∈ adler32Bytes data, b < 256 := by
  intro b hb
  simp only [adler32Bytes, List.mem_cons, List.not_mem_nil, or_false] at hb
  rcases hb with rfl | rfl | rfl | rfl <;>
    exact lt_of_le_of_lt Nat.and_le_right (by norm_num)

lemma zlibWrapL9_lt (data rawStream : List Nat) (h : ∀ b ∈ rawStream, b < 256) :
    ∀ b ∈ zlibWrapL9 data rawStream, b < 256 := by
  intro b hb
  simp only [zlibWrapL9, List.mem_cons, List.mem_append] at hb
  rcases hb with rfl | rfl | hb | hb
  · omega
  · omega
  · exact h b hb
  · exact adler32Bytes_lt data b hb

lemma append_ne_left (s t : String) (h : s ≠ "") : s ++ t ≠ "" := by
  intro he
  apply h
  apply String.ext
  have hd := congrArg String.data he
  rw [String.data_append] at hd
  have h2 := List.append_eq_nil.mp (by simpa using hd)
  simpa using h2.1

lemma generateDemoPlantUML_ne_empty (t : String) : generateDemoPlantUML t ≠ "" := by
  unfold generateDemoPlantUML
  dsimp only
  split_ifs <;> (apply append_ne_left; apply append_ne_left; decide)

/-! ### §10 Claim theorems -/

/-- Claim C1 (code bug evidence): the compression step of `encodePlantUML` is
not raw DEFLATE.  The call `pako.deflate(data, \x7b level: 9 \x7d)` leaves
pako's `raw` option at its default `false`, so the format selected is the
zlib container, not the raw stream; every buffer it produces starts with the
zlib header bytes `0x78 0xDA`; and the buffer `encodePlantUML` passes to the
custom base64 stage is exactly the zlib-framed stream, not the raw deflate
stream of the input bytes. -/
theorem encodePlantUML_compression_zlib_wrapped :
    pakoFormatOf designStudioDeflateOptions = StreamFormat.zlib ∧
    pakoFormatOf designStudioDeflateOptions ≠ StreamFormat.raw ∧
    (∀ data rawStream : List Nat, (zlibWrapL9 data rawStream).take 2 = [0x78, 0xDA]) ∧
    (∀ (rawAlg : List Nat → List Nat) (text : String),
      encodePlantUML (fun d => some (rawAlg d)) text =
        encode64 (zlibWrapL9 (utf8Bytes text) (rawAlg (utf8Bytes text)))) :=
  ⟨rfl, by decide, fun _ _ => rfl, fun _ _ => rfl⟩

/-- Claim C2: `encode64` processes the bytes in groups of 3, zero-padding the
last group, computes the four 6-bit values `c1..c4` by the stated formulas,
maps each through the fixed 64-character alphabet at index 0..63, and emits
four characters per group in order; the output is their concatenation
(`encode64Spec` is that specification, written from the claim). -/
theorem encode64_matches_grouped_spec (bs : List Nat) (h : ∀ b ∈ bs, b < 256) :
    encode64 bs = encode64Spec bs :=
  encode64_eq_spec bs h

theorem encode64_matches_grouped_spec_witness :
    encode64 [1, 2, 3, 4, 255] = encode64Spec [1, 2, 3, 4, 255] :=
  encode64_matches_grouped_spec [1, 2, 3, 4, 255] (by decide)

/-- Claim C3, counterexample: the claim is false as stated, because when the
compression step fails, `encodePlantUML` returns the `btoa` fallback, whose
output contains characters outside the PlantUML alphabet — for the input
`"ab"` with compression failing, the result is `"YWI="` and `'='` is not in
the alphabet. -/
theorem encodePlantUML_fallback_outside_alphabet :
    allInAlphabet (encodePlantUML (fun _ => none) "ab") = false := by decide

/-- Claim C3, amended: whenever the compression step succeeds, every
character of `encodePlantUML`'s output belongs to the 64-character set
`0-9A-Za-z-_`. -/
theorem encodePlantUML_alphabet_on_success (alg : List Nat → Option (List Nat))
    (s : String) (bs : List Nat) (hs : alg (utf8Bytes s) = some bs)
    (hb : ∀ b ∈ bs, b < 256) :
    allInAlphabet (encodePlantUML alg s) = true := by
  have hz := zlibWrapL9_lt (utf8Bytes s) bs hb
  have he : encodePlantUML alg s = encode64 (zlibWrapL9 (utf8Bytes s) bs) := by
    unfold encodePlantUML pakoDeflate
    rw [hs]
    rfl
  rw [he, encode64_eq_spec _ hz]
  unfold allInAlphabet
  rw [List.all_eq_true]
  intro c hc
  have hmem := encode64Spec_all _ hz c hc
  show List.elem c plantUMLChars.data = true
  exact List.elem_iff.mpr hmem

theorem encodePlantUML_alphabet_on_success_witness :
    allInAlphabet (encodePlantUML (fun _ => some [3, 0]) "a") = true :=
  encodePlantUML_alphabet_on_success _ "a" [3, 0] rfl (by decide)

/-- Claim C4: for every input string (the empty string included), the length
of `encodePlantUML`'s output is a multiple of 4 — on the normal path by the
4-characters-per-group shape of `encode64`, and on the compression-failure
fallback path by the `=`-padded shape of `btoa`. -/
theorem encodePlantUML_length_multiple_of_four (alg : List Nat → Option (List Nat))
    (s : String)
    (hb : ∀ bs, alg (utf8Bytes s) = some bs → ∀ b ∈ bs, b < 256) :
    (encodePlantUML alg s).length % 4 = 0 := by
  cases halg : alg (utf8Bytes s) with
  | none =>
    have he : encodePlantUML alg s = btoaFallback s := by
      unfold encodePlantUML pakoDeflate
      rw [halg]
      rfl
    rw [he]
    exact stdBase64_length (utf8Bytes s)
  | some bs =>
    have hz := zlibWrapL9_lt (utf8Bytes s) bs (hb bs halg)
    have he : encodePlantUML alg s = encode64 (zlibWrapL9 (utf8Bytes s) bs) := by
      unfold encodePlantUML pakoDeflate
      rw [halg]
      rfl
    rw [he, encode64_eq_spec _ hz]
    exact encode64Spec_length _

theorem encodePlantUML_length_multiple_of_four_witness :
    (encodePlantUML (fun _ => some [3, 0]) "").length % 4 = 0 :=
  encodePlantUML_length_multiple_of_four _ "" (by
    intro bs h
    cases h
    decide)

/-- Claim C5, counterexample: the claim's promise of a NON-EMPTY fallback
token fails on the empty input — with compression failing, `encodePlantUML`
of `""` is the empty string. -/
theorem encodePlantUML_fallback_empty_on_empty :
    encodePlantUML (fun _ => none) "" = "" := rfl

/-- Claim C5, amended: `encodePlantUML` never throws; when the compression
step fails it returns the percent-encoding-safe base64 of the original text
without compression, and that fallback is non-empty whenever the input text
is non-empty. -/
theorem encodePlantUML_fallback_on_failure (alg : List Nat → Option (List Nat))
    (s : String) (h : alg (utf8Bytes s) = none) :
    encodePlantUML alg s = btoaFallback s ∧ (s ≠ "" → encodePlantUML alg s ≠ "") := by
  have he : encodePlantUML alg s = btoaFallback s := by
    unfold encodePlantUML pakoDeflate
    rw [h]
    rfl
  refine ⟨he, fun hs => ?_⟩
  rw [he]
  obtain ⟨b, rest, hbs⟩ : ∃ b rest, utf8Bytes s = b :: rest := by
    rcases hu : utf8Bytes s with _ | ⟨b, rest⟩
    · exact absurd hu (utf8Bytes_ne_nil s hs)
    · exact ⟨b, rest, rfl⟩
  unfold btoaFallback
  rw [hbs]
  exact stdBase64_ne_empty b rest

theorem encodePlantUML_fallback_on_failure_witness :
    encodePlantUML (fun _ => none) "a" = btoaFallback "a" ∧
      encodePlantUML (fun _ => none) "a" ≠ "" :=
  ⟨(encodePlantUML_fallback_on_failure _ "a" rfl).1,
    (encodePlantUML_fallback_on_failure _ "a" rfl).2 (by decide)⟩

/-- Claim C6, counterexample: the claim is false as stated, because the
startup load in DesignStudio's `onMounted` assigns the parsed object
directly, with no merge over defaults — a stored object holding only
`provider` leaves every other field absent after loading. -/
theorem dsStartupLoad_leaves_fields_missing :
    configComplete (dsStartupLoad (toStored dsInitialAIConfig)
      (some (Except.ok { provider := some "openai" }))) = false := rfl

/-- Claim C6, amended: the AI-config modal's `loadConfig` merges the stored
object over `defaultConfig`, so every field missing from the stored object
takes its default value, every present field overrides it, and the loaded
configuration (an `AIConfig`) has no absent field; DesignStudio's
`onMounted`, by contrast, replaces the config with the parsed object
unmerged. -/
theorem modal_loadConfig_merges_over_defaults (current : AIConfig) (p : StoredAIConfig) :
    modalLoadConfig current (some (Except.ok p)) = mergeOverDefaults defaultConfig p ∧
    configComplete (toStored (modalLoadConfig current (some (Except.ok p)))) = true ∧
    (mergeOverDefaults defaultConfig p).provider = p.provider.getD defaultConfig.provider ∧
    (mergeOverDefaults defaultConfig p).apiKey = p.apiKey.getD defaultConfig.apiKey ∧
    (mergeOverDefaults defaultConfig p).apiUrl = p.apiUrl.getD defaultConfig.apiUrl ∧
    (mergeOverDefaults defaultConfig p).model = p.model.getD defaultConfig.model ∧
    (mergeOverDefaults defaultConfig p).temperature = p.temperature.getD defaultConfig.temperature ∧
    (mergeOverDefaults defaultConfig p).maxTokens = p.maxTokens.getD defaultConfig.maxTokens ∧
    (mergeOverDefaults defaultConfig p).timeout = p.timeout.getD defaultConfig.timeout ∧
    (mergeOverDefaults defaultConfig p).templateUrl = p.templateUrl.getD defaultConfig.templateUrl ∧
    (mergeOverDefaults defaultConfig p).enableRemoteTemplate = p.enableRemoteTemplate.getD defaultConfig.enableRemoteTemplate ∧
    (mergeOverDefaults defaultConfig p).enableStreaming = p.enableStreaming.getD defaultConfig.enableStreaming ∧
    (mergeOverDefaults defaultConfig p).enableAutoSuggest = p.enableAutoSuggest.getD defaultConfig.enableAutoSuggest ∧
    (∀ cur : StoredAIConfig, dsStartupLoad cur (some (Except.ok p)) = p) :=
  ⟨rfl, rfl, rfl, rfl, rfl, rfl, rfl, rfl, rfl, rfl, rfl, rfl, rfl, fun _ => rfl⟩

/-- Claim C7, counterexample: at the part_002 site the claim's
"keyword-matched diagram derived from the user's description" is false —
two descriptions that the keyword matcher distinguishes (a login request
and an order request) produce the identical inserted document content,
because the part_002 fallback is one fixed canned diagram. -/
theorem part002_fallback_ignores_description :
    (part002GeneratePlantUML p002StateA (Except.error "network")).docContent =
      (part002GeneratePlantUML p002StateB (Except.error "network")).docContent ∧
    generateDemoPlantUML p002StateA.aiInput ≠ generateDemoPlantUML p002StateB.aiInput := by
  constructor
  · rfl
  · decide

/-- Claim C7, amended: when the AI invoke rejects, DesignStudio's
`generatePlantUMLFromInput` inserts the canned keyword-matched diagram
`generateDemoPlantUML(description)` (non-empty) into the document, while
the part_002 view appends a block containing its fixed canned diagram
(non-empty, independent of the description); in both cases the user is
never left with nothing. -/
theorem generate_fallback_inserts_demo (st : StudioState) (p : Part002State)
    (err err2 md : String)
    (h1 : ¬ jsTrim st.aiInput = "") (h2 : st.editorContent = some md)
    (h3 : ¬ jsTrim p.aiInput = "") :
    (generatePlantUMLFromInput st (Except.error err)).editorContent =
      some (md ++ insertHeader ++ generateDemoPlantUML st.aiInput) ∧
    (generatePlantUMLFromInput st (Except.error err)).docContent =
      md ++ insertHeader ++ generateDemoPlantUML st.aiInput ∧
    generateDemoPlantUML st.aiInput ≠ "" ∧
    (part002GeneratePlantUML p (Except.error err2)).docContent =
      part002Current p ++ part002Block part002DemoPlantUML ∧
    part002Block part002DemoPlantUML ≠ "" := by
  refine ⟨?_, ?_, generateDemoPlantUML_ne_empty st.aiInput, ?_, ?_⟩
  · simp [generatePlantUMLFromInput, h1, insertPlantUMLToEditor, h2]
  · simp [generatePlantUMLFromInput, h1, insertPlantUMLToEditor, h2]
  · simp [part002GeneratePlantUML, part002Current, h3]
  · exact append_ne_left _ _ (append_ne_left _ _ (by decide))

theorem generate_fallback_inserts_demo_witness :
    (generatePlantUMLFromInput demoStudioState (Except.error "boom")).editorContent =
      some ("" ++ insertHeader ++ generateDemoPlantUML demoStudioState.aiInput) ∧
    (generatePlantUMLFromInput demoStudioState (Except.error "boom")).docContent =
      "" ++ insertHeader ++ generateDemoPlantUML demoStudioState.aiInput ∧
    generateDemoPlantUML demoStudioState.aiInput ≠ "" ∧
    (part002GeneratePlantUML p002StateA (Except.error "boom")).docContent =
      part002Current p002StateA ++ part002Block part002DemoPlantUML ∧
    part002Block part002DemoPlantUML ≠ "" :=
  generate_fallback_inserts_demo demoStudioState p002StateA "boom" "boom" ""
    (by decide) rfl (by decide)

/-- Claim C8, counterexample: in the fetch-based `loadTemplates`, a payload
that parses to a non-array yields the empty template list and no exception,
but the error indicator is NOT set (the source only logs a console
warning), contradicting the claim as stated. -/
theorem fetch_loader_nonarray_sets_no_error :
    (loadTemplatesFetch "https://tpl"
      (Except.ok { ok := true, status := 200, body := Except.ok JsonShape.nonArray })
      initTState).error = none ∧
    (loadTemplatesFetch "https://tpl"
      (Except.ok { ok := true, status := 200, body := Except.ok JsonShape.nonArray })
      initTState).templates = [] := by
  exact ⟨rfl, rfl⟩

/-- Claim C8, amended: both loaders treat bad payloads as empty and
non-fatal (they are total state transitions; every path sets the template
list).  In the command-based loader, a JSON parse failure or a non-array
parse both set the template list to empty and set the error indicator; in
the fetch-based loader, a body whose JSON parse rejects sets the empty
list and the error indicator, but a body parsing to a non-array sets the
empty list while leaving the error indicator unset. -/
theorem loadTemplates_parse_failure_handling (url payload : String)
    (pr : String → Option JsonShape) (st : TState) (respA respB : FetchResp)
    (hu : ¬ jsTrim url = "")
    (hp : pr payload = none ∨ pr payload = some JsonShape.nonArray)
    (hA1 : respA.ok = true) (hA2 : respA.body = Except.ok JsonShape.nonArray)
    (hB1 : respB.ok = true) (hB2 : respB.body = Except.error ()) :
    ((loadTemplatesCommand url (Except.ok payload) pr st).templates = [] ∧
      (loadTemplatesCommand url (Except.ok payload) pr st).error.isSome = true) ∧
    ((loadTemplatesFetch url (Except.ok respA) st).templates = [] ∧
      (loadTemplatesFetch url (Except.ok respA) st).error = none) ∧
    ((loadTemplatesFetch url (Except.ok respB) st).templates = [] ∧
      (loadTemplatesFetch url (Except.ok respB) st).error.isSome = true) := by
  obtain ⟨oA, sA, bA⟩ := respA
  obtain ⟨oB, sB, bB⟩ := respB
  simp only at hA1 hA2 hB1 hB2
  subst hA1 hA2 hB1 hB2
  refine ⟨?_, ?_, ?_⟩
  · rcases hp with hp | hp <;> simp [loadTemplatesCommand, hu, hp]
  · simp [loadTemplatesFetch, hu]
  · simp [loadTemplatesFetch, hu]

theorem loadTemplates_parse_failure_handling_witness :
    ((loadTemplatesCommand "u" (Except.ok "x") (fun _ => none) initTState).templates = [] ∧
      (loadTemplatesCommand "u" (Except.ok "x") (fun _ => none) initTState).error.isSome = true) ∧
    ((loadTemplatesFetch "u"
        (Except.ok { ok := true, status := 200, body := Except.ok JsonShape.nonArray })
        initTState).templates = [] ∧
      (loadTemplatesFetch "u"
        (Except.ok { ok := true, status := 200, body := Except.ok JsonShape.nonArray })
        initTState).error = none) ∧
    ((loadTemplatesFetch "u"
        (Except.ok { ok := true, status := 200, body := Except.error () })
        initTState).templates = [] ∧
      (loadTemplatesFetch "u"
        (Except.ok { ok := true, status := 200, body := Except.error () })
        initTState).error.isSome = true) :=
  loadTemplates_parse_failure_handling "u" "x" (fun _ => none) initTState
    { ok := true, status := 200, body := Except.ok JsonShape.nonArray }
    { ok := true, status := 200, body := Except.error () }
    (by decide) (Or.inl rfl) rfl rfl rfl rfl

/-- Claim C9: `handleUpload` attempts an upload only when the trimmed title
and the trimmed document content are both non-empty; when the precondition
fails, no request is issued, the form state (title, description, category,
tags, and the rest) is unchanged apart from the failure result message that
is set, and the local template store is untouched. -/
theorem handleUpload_validation_guard (st : UploadState) (content now iso : String)
    (invokeRes : Except Unit Unit) (ls : List UploadTemplateData)
    (h : isFormValid st content = false) :
    handleUpload st content now iso invokeRes ls =
      ({ st with uploadResult := some (false, "请填写模板标题") }, false, ls) := by
  simp [handleUpload, h]

theorem handleUpload_validation_guard_witness :
    handleUpload blankTitleUploadState "content here" "123" "2026-01-01" (Except.ok ()) [] =
      ({ blankTitleUploadState with uploadResult := some (false, "请填写模板标题") }, false, []) :=
  handleUpload_validation_guard blankTitleUploadState "content here" "123" "2026-01-01"
    (Except.ok ()) [] (by decide)

/-- Claim C10: for every list of metric records, `chartData` has at most 7
entries, is ordered ascending by date, is exactly a suffix of the
date-sorted records (the most recent ones), and its computation leaves the
underlying metrics list unchanged (the source sorts the spread-copy
`[...metrics.value]`). -/
theorem chartData_last7_sorted_pure (k : String → Int) (ms : List MetricData) :
    (chartData k ms).length ≤ 7 ∧
    (chartData k ms).length = min ms.length 7 ∧
    List.Pairwise (fun a b => k a.date ≤ k b.date) (chartData k ms) ∧
    (chartData k ms) <:+ sortedByDate k ms ∧
    (chartDataRun k ms).2 = ms := by
  have hlen : (sortedByDate k ms).length = ms.length := by
    simp [sortedByDate]
  refine ⟨?_, ?_, ?_, ?_, rfl⟩
  · show ((sortedByDate k ms).drop ((sortedByDate k ms).length - 7)).length ≤ 7
    rw [List.length_drop]
    omega
  · show ((sortedByDate k ms).drop ((sortedByDate k ms).length - 7)).length = min ms.length 7
    rw [List.length_drop]
    omega
  · have hs : List.Pairwise
        (fun a b => (fun a b => decide (k a.date ≤ k b.date)) a b = true)
        (ms.mergeSort (fun a b => decide (k a.date ≤ k b.date))) :=
      List.sorted_mergeSort
        (fun a b c h1 h2 => by
          simp only [decide_eq_true_eq] at h1 h2 ⊢
          exact le_trans h1 h2)
        (fun a b => by
          simp only [Bool.or_eq_true, decide_eq_true_eq]
          exact Int.le_total _ _)
        ms
    have hp : List.Pairwise (fun a b => k a.date ≤ k b.date) (sortedByDate k ms) :=
      hs.imp (fun h => of_decide_eq_true h)
    exact hp.sublist (List.drop_sublist _ _)
  · exact List.drop_suffix _ _
